import Mathlib

/-!
Verification of the MagicMirror `mmm-infomirror` module against its
natural-language specification.

The development shallowly embeds the JavaScript sources:

* `src/modules/mmm-infomirror/README.md` (inlined `SensorManager` class and
  the two `getDom` module implementations),
* `src/modules/mmm-infomirror/node-helper.js` (configuration REST server,
  `validateConfiguration` / `loadConfiguration` / `saveConfiguration`),
* `src/modules/mmm-infomirror/node_helper.js` (`sendConfigurationToPython`),
* `src/unnamed/part_001` and `src/unnamed/part_000` (`GPIOController`:
  `calculateDistance`, `setLEDIntensity`, `setStripColor`, `clearAllLEDs`,
  `turnOffLEDs`).

JavaScript numbers that appear in this code are modelled as rationals (`ℚ`),
pigpio ticks as naturals below 2^32, and JavaScript's 32-bit `<<` operator is
embedded bit-for-bit (`jsShl32`).  Fallible/branching code is embedded as
total Lean functions returning the updated state together with the list of
events emitted by the call.
-/

/-! ## JavaScript truthiness helpers

The constructors in the sources populate their config with expressions of the
form `config.field || default`.  JavaScript returns the left operand when it
is truthy; the number `0` and the boolean `false` are falsy, every other
number (including negative numbers) is truthy. -/

/-- JS `x || d` for an optionally-present numeric field: `undefined` and `0`
are falsy and yield the default. -/
def jsOrNum (x : Option ℚ) (d : ℚ) : ℚ :=
  match x with
  | some q => if q = 0 then d else q
  | none => d

/-- JS `x || d` for an optionally-present boolean field: `undefined` and
`false` are falsy and yield the default. -/
def jsOrBool (x : Option Bool) (d : Bool) : Bool :=
  match x with
  | some b => if b then true else d
  | none => d

/-! ## JSON values

The configuration REST server passes configurations around as JSON values
(`express.json()` request bodies, `JSON.parse`/`JSON.stringify` on the config
file).  JSON cannot carry `undefined` or `NaN`, so object fields are a list
of string-keyed JSON values and numbers are rationals. -/

/-- A JSON value, as produced by `JSON.parse` / `express.json()`. -/
inductive JValue where
  | null
  | bool (b : Bool)
  | num (q : ℚ)
  | str (s : String)
  | arr (elems : List JValue)
  | obj (fields : List (String × JValue))

/-- Field lookup on a JSON value: `v[k]` is `some` value for an object that
has the key, `none` (JS `undefined`) otherwise. -/
def JValue.getField (v : JValue) (k : String) : Option JValue :=
  match v with
  | JValue.obj fields => fields.lookup k
  | _ => none

/-- `setField fields k v` models assigning key `k` in an object literal: the
first existing entry for `k` is overwritten in place, otherwise the entry is
appended.  This is the effect of `{...config, lastUpdated: ts}` on the
`lastUpdated` key. -/
def setField (fields : List (String × JValue)) (k : String) (v : JValue) :
    List (String × JValue) :=
  match fields with
  | [] => [(k, v)]
  | (k', v') :: rest =>
      if k' = k then (k, v) :: rest else (k', v') :: setField rest k v

/-- Own enumerable properties contributed by a JS spread `{...v}`: an object
contributes its fields, an array its index-keyed elements, a string its
index-keyed characters, and every other value contributes nothing. -/
def jsSpread (v : JValue) : List (String × JValue) :=
  match v with
  | JValue.obj fields => fields
  | JValue.arr xs => xs.enum.map (fun p => (toString p.1, p.2))
  | JValue.str s => s.toList.enum.map
      (fun p => (toString p.1, JValue.str (String.singleton p.2)))
  | _ => []

/-! ## node-helper.js: configuration validation and the JSON config file -/

/-- The five field names checked by the `booleanFields` loop of
`validateConfiguration`. -/
def booleanFields : List String :=
  ["showWeather", "showTime", "showCalendar", "showCompliments", "debugMode"]

/-- The three field names checked by the `numericFields` loop of
`validateConfiguration`. -/
def numericFields : List String :=
  ["ledIntensity", "motionTimeout", "detectionDistance"]

/-- One step of the `booleanFields` loop: `config.hasOwnProperty(field) &&
typeof config[field] !== 'boolean'` makes validation fail. -/
def boolFieldOk (fields : List (String × JValue)) (name : String) : Bool :=
  match fields.lookup name with
  | some (JValue.bool _) => true
  | some _ => false
  | none => true

/-- One step of the `numericFields` loop: a present field must be a number
(JSON numbers are never `NaN`, so the `isNaN` test cannot fire here). -/
def numFieldOk (fields : List (String × JValue)) (name : String) : Bool :=
  match fields.lookup name with
  | some (JValue.num _) => true
  | some _ => false
  | none => true

/-- The `ledIntensity` range test.  It runs only after the numeric-type loop
has passed, so a present `ledIntensity` is a number here; the wildcard arm is
unreachable in `validateConfiguration`. -/
def ledIntensityBad (fields : List (String × JValue)) : Bool :=
  match fields.lookup "ledIntensity" with
  | some (JValue.num q) => decide (q < 0 ∨ q > 100)
  | _ => false

/-- The `detectionDistance` range test, likewise only reached with a numeric
or absent field. -/
def detectionDistanceBad (fields : List (String × JValue)) : Bool :=
  match fields.lookup "detectionDistance" with
  | some (JValue.num q) => decide (q < 10 ∨ q > 400)
  | _ => false

/-- `node-helper.js` `validateConfiguration`.  `some b` is a normal return of
`b`; `none` models the `TypeError` thrown by `config.hasOwnProperty` when the
body is JSON `null` (JS `typeof null === 'object'` passes the first test).
Primitive bodies fail the `typeof config !== 'object'` test; arrays pass it
and own none of the checked keys, so every check is skipped. -/
def validateConfiguration (v : JValue) : Option Bool :=
  match v with
  | JValue.bool _ => some false
  | JValue.num _ => some false
  | JValue.str _ => some false
  | JValue.null => none
  | JValue.arr _ => some true
  | JValue.obj fields =>
      if ¬ (booleanFields.all (boolFieldOk fields)) then some false
      else if ¬ (numericFields.all (numFieldOk fields)) then some false
      else if ledIntensityBad fields then some false
      else if detectionDistanceBad fields then some false
      else some true

/-- The contents of the JSON configuration file on disk. -/
inductive FileContent where
  | absent
  | unreadable
  | json (v : JValue)

/-- The hard-coded default configuration returned by `loadConfiguration` when
the file is missing or cannot be read/parsed. -/
def defaultConfiguration : JValue :=
  JValue.obj
    [("showWeather", JValue.bool true),
     ("showTime", JValue.bool true),
     ("showCalendar", JValue.bool true),
     ("showCompliments", JValue.bool false),
     ("ledIntensity", JValue.num 50),
     ("motionTimeout", JValue.num 30000),
     ("detectionDistance", JValue.num 100),
     ("distanceSmoothing", JValue.bool true),
     ("debugMode", JValue.bool false)]

/-- `node-helper.js` `loadConfiguration`: a readable, parsable file yields its
parsed contents; a missing file, a read error or a parse error all fall
through to the default configuration. -/
def loadConfiguration (file : FileContent) : JValue :=
  match file with
  | FileContent.json v => v
  | FileContent.absent => defaultConfiguration
  | FileContent.unreadable => defaultConfiguration

/-- `node-helper.js` `saveConfiguration`: the file is overwritten with
`JSON.stringify({...config, lastUpdated: new Date().toISOString()})`; `ts` is
the timestamp string. -/
def saveConfiguration (config : JValue) (ts : String) (_file : FileContent) :
    FileContent :=
  FileContent.json (JValue.obj (setField (jsSpread config) "lastUpdated" (JValue.str ts)))

/-- Outcome of one `POST /api/config` request: HTTP status, the `success`
flag of the JSON response, and the configuration file afterwards. -/
structure PostResult where
  status : ℕ
  success : Bool
  file : FileContent

/-- The `POST /api/config` handler of `startConfigurationServer`: a body that
fails validation is answered `400 {success:false}` before any save; a valid
body is saved and answered `200 {success:true}`; an exception thrown inside
the `try` (e.g. validation on a `null` body) is answered `500
{success:false}` without reaching the save. -/
def postApiConfig (file : FileContent) (body : JValue) (ts : String) : PostResult :=
  match validateConfiguration body with
  | some false => PostResult.mk 400 false file
  | some true => PostResult.mk 200 true (saveConfiguration body ts file)
  | none => PostResult.mk 500 false file

/-! ## node_helper.js: messaging to the Python helper process -/

/-- One newline-terminated `JSON.stringify(message) + '\n'` chunk written to
the Python process's stdin; the object literal built by
`sendConfigurationToPython` has exactly these three fields. -/
structure PyMessage where
  type : String
  data : JValue
  timestamp : String

/-- The node_helper state that `sendConfigurationToPython` consults:
whether `this.pythonProcess` is non-null, whether the process has sent its
`ready` message, and the chunks written to its stdin so far. -/
structure HelperState where
  pythonProcess : Bool
  pythonAppReady : Bool
  stdinWrites : List PyMessage

/-- `node_helper.js` `sendConfigurationToPython`: with no process or a
process that has not reported ready it returns `false` and writes nothing;
otherwise it writes the single `config_update` message and returns `true`. -/
def sendConfigurationToPython (st : HelperState) (config : JValue) (ts : String) :
    Bool × HelperState :=
  if ¬ st.pythonProcess ∨ ¬ st.pythonAppReady then
    (false, st)
  else
    (true, HelperState.mk st.pythonProcess st.pythonAppReady
      (st.stdinWrites ++ [PyMessage.mk "config_update" config ts]))

/-! ## SensorManager (inlined in README.md)

`SensorManager` keeps a raw and a smoothed distance, a bounded history used
by the smoothing filter, a presence flag and a presence timer.  The timer is
modelled as `none` (no pending `setTimeout` callback) or `some r` (a pending
callback that fires after `r` more milliseconds); `tickPresenceTimer` is one
elapsed millisecond. -/

/-- The constructor argument of `SensorManager`: each field may be absent
(`undefined`). -/
structure RawSensorConfig where
  detectionDistance : Option ℚ
  presenceTimeout : Option ℚ
  distanceCheckInterval : Option ℚ
  potentiometerPollingInterval : Option ℚ
  potentiometerThreshold : Option ℚ
  distanceSmoothing : Option Bool
  smoothingFactor : Option ℚ
  minValidDistance : Option ℚ
  maxValidDistance : Option ℚ
  debugMode : Option Bool

/-- A `RawSensorConfig` with every field absent. -/
def emptyRawSensorConfig : RawSensorConfig :=
  RawSensorConfig.mk none none none none none none none none none none

/-- The effective `this.config` of `SensorManager`. -/
structure SensorConfig where
  detectionDistance : ℚ
  presenceTimeout : ℚ
  distanceCheckInterval : ℚ
  potentiometerPollingInterval : ℚ
  potentiometerThreshold : ℚ
  distanceSmoothing : Bool
  smoothingFactor : ℚ
  minValidDistance : ℚ
  maxValidDistance : ℚ
  debugMode : Bool

/-- The `SensorManager` constructor's config block, `field: config.field ||
default` for every entry. -/
def mkSensorConfig (r : RawSensorConfig) : SensorConfig :=
  SensorConfig.mk
    (jsOrNum r.detectionDistance 100)
    (jsOrNum r.presenceTimeout 30000)
    (jsOrNum r.distanceCheckInterval 500)
    (jsOrNum r.potentiometerPollingInterval 1000)
    (jsOrNum r.potentiometerThreshold 5)
    (jsOrBool r.distanceSmoothing true)
    (jsOrNum r.smoothingFactor (3 / 10))
    (jsOrNum r.minValidDistance 10)
    (jsOrNum r.maxValidDistance 300)
    (jsOrBool r.debugMode false)

/-- The mutable state of a `SensorManager`. -/
structure SensorState where
  currentDistance : ℚ
  smoothedDistance : ℚ
  lastPotentiometerValue : ℚ
  objectPresent : Bool
  distanceHistory : List ℚ
  presenceTimer : Option ℚ

/-- State installed by the `SensorManager` constructor. -/
def initialSensorState : SensorState :=
  SensorState.mk 999 999 50 false [] none

/-- Events emitted by `SensorManager` (the ones the verified claims are
about). -/
inductive SensorOut where
  | distanceUpdate (raw : ℚ) (smoothed : ℚ) (withinRange : Bool)
  | presenceDetected (distance : ℚ) (detectionDistance : ℚ) (forced : Bool)
  | presenceTimeout (forced : Bool)

/-- `applySmoothingFilter(newDistance)`: pushes the reading, trims the
history to `maxHistoryLength = 5` entries, returns the reading itself for a
singleton history and otherwise the exponential moving average with
`previousSmoothed = this.smoothedDistance || newDistance` (a smoothed
distance of `0` is falsy and is replaced by the new reading).  Returns the
new history together with the filter value. -/
def applySmoothingFilter (c : SensorConfig) (s : SensorState) (newDistance : ℚ) :
    List ℚ × ℚ :=
  let h1 := s.distanceHistory ++ [newDistance]
  let h2 := if h1.length > 5 then h1.drop 1 else h1
  if h2.length = 1 then
    (h2, newDistance)
  else
    let factor := c.smoothingFactor
    let previousSmoothed := if s.smoothedDistance = 0 then newDistance else s.smoothedDistance
    (h2, factor * newDistance + (1 - factor) * previousSmoothed)

/-- `handleDistanceChange(rawDistance)`: readings outside
`[minValidDistance, maxValidDistance]` are dropped; valid readings update the
raw distance, run the smoothing filter when `distanceSmoothing` is set (and
otherwise copy the raw reading), and emit one `distanceUpdate` event. -/
def handleDistanceChange (c : SensorConfig) (rawDistance : ℚ) (s : SensorState) :
    SensorState × List SensorOut :=
  if rawDistance < c.minValidDistance ∨ rawDistance > c.maxValidDistance then
    (s, [])
  else
    let s1 := SensorState.mk rawDistance s.smoothedDistance s.lastPotentiometerValue
      s.objectPresent s.distanceHistory s.presenceTimer
    let s2 :=
      if c.distanceSmoothing then
        let hf := applySmoothingFilter c s1 rawDistance
        SensorState.mk s1.currentDistance hf.2 s1.lastPotentiometerValue
          s1.objectPresent hf.1 s1.presenceTimer
      else
        SensorState.mk s1.currentDistance rawDistance s1.lastPotentiometerValue
          s1.objectPresent s1.distanceHistory s1.presenceTimer
    (s2, [SensorOut.distanceUpdate rawDistance s2.smoothedDistance
      (decide (s2.smoothedDistance ≤ c.detectionDistance))])

/-- `resetPresenceTimer()`: clears any pending timer and arms a fresh one for
`presenceTimeout` milliseconds. -/
def resetPresenceTimer (c : SensorConfig) (s : SensorState) : SensorState :=
  SensorState.mk s.currentDistance s.smoothedDistance s.lastPotentiometerValue
    s.objectPresent s.distanceHistory (some c.presenceTimeout)

/-- `checkPresenceLogic()`: compares the smoothed distance against
`detectionDistance`; a newly in-range object sets `objectPresent`, emits
`presenceDetected` and arms the timer, a still-present in-range object only
re-arms the timer, and an out-of-range reading changes nothing (the timeout
is left to turn the presence off). -/
def checkPresenceLogic (c : SensorConfig) (s : SensorState) :
    SensorState × List SensorOut :=
  let isWithinRange := s.smoothedDistance ≤ c.detectionDistance
  if isWithinRange ∧ ¬ s.objectPresent then
    let s1 := SensorState.mk s.currentDistance s.smoothedDistance
      s.lastPotentiometerValue true s.distanceHistory s.presenceTimer
    (resetPresenceTimer c s1,
      [SensorOut.presenceDetected s.smoothedDistance c.detectionDistance false])
  else if isWithinRange ∧ s.objectPresent then
    (resetPresenceTimer c s, [])
  else
    (s, [])

/-- `forcePresenceTimeout()`: with a present object, clears the flag and the
timer and emits a forced `presenceTimeout`. -/
def forcePresenceTimeout (s : SensorState) : SensorState × List SensorOut :=
  if s.objectPresent then
    (SensorState.mk s.currentDistance s.smoothedDistance s.lastPotentiometerValue
      false s.distanceHistory none, [SensorOut.presenceTimeout true])
  else (s, [])

/-- One elapsed millisecond of the pending `setTimeout` callback armed by
`resetPresenceTimer`: the callback fires when its delay is exhausted, turning
`objectPresent` off and emitting `presenceTimeout`; with no pending timer
nothing happens. -/
def tickPresenceTimer (s : SensorState) : SensorState × List SensorOut :=
  match s.presenceTimer with
  | none => (s, [])
  | some r =>
      if r ≤ 1 then
        (SensorState.mk s.currentDistance s.smoothedDistance s.lastPotentiometerValue
          false s.distanceHistory none, [SensorOut.presenceTimeout false])
      else
        (SensorState.mk s.currentDistance s.smoothedDistance s.lastPotentiometerValue
          s.objectPresent s.distanceHistory (some (r - 1)), [])

/-- The events a `SensorManager` reacts to between its own emissions: one
millisecond of real time, one run of `checkPresenceLogic` with the smoothed
distance standing at `d`, and the manual `forcePresenceTimeout`. -/
inductive SEvent where
  | tick
  | check (d : ℚ)
  | forceTimeout

/-- Dispatch one event: a `check d` first records the smoothed distance `d`
(the value the interval callback reads from `this.smoothedDistance`) and then
runs `checkPresenceLogic`. -/
def stepSensorEvent (c : SensorConfig) (s : SensorState) (e : SEvent) :
    SensorState × List SensorOut :=
  match e with
  | SEvent.tick => tickPresenceTimer s
  | SEvent.check d =>
      checkPresenceLogic c (SensorState.mk s.currentDistance d
        s.lastPotentiometerValue s.objectPresent s.distanceHistory s.presenceTimer)
  | SEvent.forceTimeout => forcePresenceTimeout s

/-- Run a sequence of events, collecting every emitted `SensorOut`. -/
def runSensorEvents (c : SensorConfig) (s : SensorState) :
    List SEvent → SensorState × List SensorOut
  | [] => (s, [])
  | e :: es =>
      let r1 := stepSensorEvent c s e
      let r2 := runSensorEvents c r1.1 es
      (r2.1, r1.2 ++ r2.2)

/-- `goodTrace c r es` says that, starting with `r` milliseconds left on the
armed presence timer, the trace never lets the timer run out: fewer than the
remaining milliseconds elapse before each in-range check (which re-arms the
timer for `presenceTimeout`), out-of-range checks leave the timer alone, and
`forcePresenceTimeout` never occurs. -/
def goodTrace (c : SensorConfig) : ℚ → List SEvent → Bool
  | _, [] => true
  | r, SEvent.tick :: es => decide (1 < r) && goodTrace c (r - 1) es
  | r, SEvent.check d :: es =>
      if d ≤ c.detectionDistance then goodTrace c c.presenceTimeout es
      else goodTrace c r es
  | _, SEvent.forceTimeout :: _ => false

/-- `true` when an output trace contains no `presenceTimeout` event, forced
or not. -/
def noPresenceTimeoutOut (outs : List SensorOut) : Bool :=
  outs.all fun o =>
    match o with
    | SensorOut.presenceTimeout _ => false
    | _ => true

/-! ## GPIOController (src/unnamed/part_001, HC-SR04 & NeoPixel version)

Pigpio reports interrupt timestamps as 32-bit microsecond ticks, so
`startTime` and `endTime` are naturals below `2^32`.  The pixel buffer is a
list of 32-bit words. -/

/-- The `GPIOController` state consulted by the embedded methods. -/
structure GPIOState where
  initialized : Bool
  mockMode : Bool
  currentLedIntensity : ℚ
  currentDistance : ℚ
  startTime : ℕ
  endTime : ℕ
  pixels : List ℤ

/-- Events emitted by `GPIOController`. -/
inductive GPIOOut where
  | distanceChanged (distance : ℚ)

/-- JavaScript `ToInt32`: reduce modulo `2^32` into `[-2^31, 2^31)`. -/
def toInt32 (n : ℤ) : ℤ :=
  let m := n % (2 ^ 32)
  if m < 2 ^ 31 then m else m - 2 ^ 32

/-- JavaScript's 32-bit left shift `a << b`: the shift count is taken modulo
32 and the result is truncated to a signed 32-bit integer.  In particular
`jsShl32 1 32 = 1`, not `2^32`. -/
def jsShl32 (a b : ℤ) : ℤ :=
  toInt32 (toInt32 a * 2 ^ (b % 32).toNat)

/-- `GPIOController.calculateDistance()` (identical in `src/unnamed/part_000`
and `src/unnamed/part_001`): with both edge timestamps recorded (both ticks
non-zero — `if (this.startTime && this.endTime)`), it takes the tick
difference, adds `(1 << 32)` when the difference is negative, converts to
centimetres via `timeDiff * 34300 / (2 * 1000000)`, and accepts the reading
(updating `currentDistance` and emitting `distanceChanged`) only inside the
HC-SR04 range `[2, 400]`; the timestamps are reset either way. -/
def calculateDistance (s : GPIOState) : GPIOState × List GPIOOut :=
  if s.startTime ≠ 0 ∧ s.endTime ≠ 0 then
    let d0 : ℤ := (s.endTime : ℤ) - (s.startTime : ℤ)
    let timeDiff : ℤ := if d0 < 0 then d0 + jsShl32 1 32 else d0
    let distance : ℚ := (timeDiff : ℚ) * 34300 / (2 * 1000000)
    if 2 ≤ distance ∧ distance ≤ 400 then
      (GPIOState.mk s.initialized s.mockMode s.currentLedIntensity distance 0 0 s.pixels,
        [GPIOOut.distanceChanged distance])
    else
      (GPIOState.mk s.initialized s.mockMode s.currentLedIntensity s.currentDistance 0 0 s.pixels,
        [])
  else (s, [])

/-- The distance the tick-rollover comment intends: the tick difference taken
modulo `2^32` (pigpio ticks are 32-bit), converted to centimetres.  Modelled
from the spec sentence behind claim C8; compare with `calculateDistance`. -/
def specWrappedDistance (startTime endTime : ℕ) : ℚ :=
  (((((endTime : ℤ) - (startTime : ℤ)) % (2 ^ 32) : ℤ)) : ℚ) * 34300 / (2 * 1000000)

/-- JavaScript `Math.round`: half-up rounding, `⌊q + 1/2⌋`. -/
def jsRound (q : ℚ) : ℤ :=
  ⌊q + 1 / 2⌋

/-- The 32-bit word `(r << 16) | (g << 8) | b` built from the
intensity-scaled channels in `setStripColor`; channel values are at most 255,
so the shifts cannot overflow or overlap. -/
def stripColorWord (red green blue : ℕ) (intensity : ℚ) : ℤ :=
  jsRound ((red : ℚ) * intensity / 100) * 65536 +
    jsRound ((green : ℚ) * intensity / 100) * 256 +
    jsRound ((blue : ℚ) * intensity / 100)

/-- `GPIOController.setStripColor(red, green, blue, intensity)`: uninitialized
or mock-mode controllers do nothing; otherwise every pixel of the strip is
set to the scaled colour word and the strip is re-rendered. -/
def setStripColor (s : GPIOState) (red green blue : ℕ) (intensity : ℚ) : GPIOState :=
  if ¬ s.initialized ∨ s.mockMode then s
  else
    GPIOState.mk s.initialized s.mockMode s.currentLedIntensity s.currentDistance
      s.startTime s.endTime (s.pixels.map fun _ => stripColorWord red green blue intensity)

/-- `GPIOController.clearAllLEDs()`: uninitialized or mock-mode controllers do
nothing; otherwise `pixels.fill(0)` and a render. -/
def clearAllLEDs (s : GPIOState) : GPIOState :=
  if ¬ s.initialized ∨ s.mockMode then s
  else
    GPIOState.mk s.initialized s.mockMode s.currentLedIntensity s.currentDistance
      s.startTime s.endTime (s.pixels.map fun _ => 0)

/-- `GPIOController.setLEDIntensity(intensity)`: a no-op unless initialized;
the intensity is clamped to `[0, 100]` with `Math.max(0, Math.min(100, x))`
and stored; in mock mode the hardware is untouched; a clamped value of `0`
clears the strip and any other value paints it white at that percentage. -/
def setLEDIntensity (s : GPIOState) (intensity : ℚ) : GPIOState :=
  if ¬ s.initialized then s
  else
    let clampedIntensity := max 0 (min 100 intensity)
    let s1 := GPIOState.mk s.initialized s.mockMode clampedIntensity s.currentDistance
      s.startTime s.endTime s.pixels
    if s.mockMode then s1
    else if clampedIntensity = 0 then clearAllLEDs s1
    else setStripColor s1 255 255 255 clampedIntensity

/-- `GPIOController.turnOffLEDs()` delegates to `setLEDIntensity(0)`. -/
def turnOffLEDs (s : GPIOState) : GPIOState :=
  setLEDIntensity s 0

/-! ## The two `getDom` implementations (README.md)

Both module variants build a wrapper div: a loading notice while `!loaded`, a
disabled state while `!displayEnabled` (the hardware variant returns an empty
hidden wrapper, the display-only variant a "Display Disabled" notice), and
otherwise a content container whose children are appended under boolean
configuration guards.  The DOM is abstracted to the ordered list of blocks
the wrapper ends up containing. -/

/-- The distinct DOM fragments `getDom` can place in the wrapper. -/
inductive Block where
  | loading
  | disabledNotice
  | time
  | weather
  | calendar
  | compliments
  | status
deriving DecidableEq

/-- The module state consulted by `getDom`: the `loaded` flag, the config
booleans, the cached weather object (`null` until a `WEATHER_DATA` payload
arrives) and the cached calendar event list. -/
structure ModuleState where
  loaded : Bool
  displayEnabled : Bool
  showTime : Bool
  showWeather : Bool
  showCalendar : Bool
  showCompliments : Bool
  debugMode : Bool
  weatherData : Option Unit
  calendarEvents : List Unit

/-- The children appended to the content container, shared verbatim by both
`getDom` implementations. -/
def contentBlocks (s : ModuleState) : List Block :=
  (if s.showTime then [Block.time] else []) ++
  (if s.showWeather ∧ s.weatherData.isSome then [Block.weather] else []) ++
  (if s.showCalendar ∧ s.calendarEvents.length > 0 then [Block.calendar] else []) ++
  (if s.showCompliments then [Block.compliments] else []) ++
  (if s.debugMode then [Block.status] else [])

/-- `getDom` of the display-only module (README.md, Arduino variant): loading
notice before `loaded`, "Display Disabled" notice while disabled, content
container otherwise. -/
def displayGetDom (s : ModuleState) : List Block :=
  if ¬ s.loaded then [Block.loading]
  else if ¬ s.displayEnabled then [Block.disabledNotice]
  else contentBlocks s

/-- `getDom` of the hardware module (README.md, GPIO variant): loading notice
before `loaded`, an empty hidden wrapper while disabled, content container
otherwise. -/
def hardwareGetDom (s : ModuleState) : List Block :=
  if ¬ s.loaded then [Block.loading]
  else if ¬ s.displayEnabled then []
  else contentBlocks s

/-- `true` when a block list carries at least one of the four content blocks
named by claim C6 (time, weather, calendar, compliments). -/
def hasContentBlock (bs : List Block) : Bool :=
  bs.contains Block.time || bs.contains Block.weather ||
    bs.contains Block.calendar || bs.contains Block.compliments

/-! ## The claim predicates stated by the specification

These definitions follow the words of the specification claims (not the
code); they are compared against the embedded code in the theorems below. -/

/-- Claim C5's round-trip property, as the spec words it: the loaded value
"agrees with c on every field of c". -/
def AgreesOnFieldsOf (c loaded : JValue) : Prop :=
  ∀ k v, c.getField k = some v → loaded.getField k = some v

/-! ## Concrete instances used by counterexamples and witnesses -/

/-- A constructor argument whose only explicit entry is a (truthy, negative)
`minValidDistance`, making a raw reading of `0` valid. -/
def c1Raw : RawSensorConfig :=
  RawSensorConfig.mk none none none none none none none (some (-5)) none none

/-- The effective config built from `c1Raw`. -/
def c1Config : SensorConfig := mkSensorConfig c1Raw

/-- The sensor state after processing the (valid) raw reading `0` from the
freshly constructed state: the history is `[0]` and the smoothed distance is
`0`. -/
def c1State : SensorState := (handleDistanceChange c1Config 0 initialSensorState).1

/-- A configuration object that already carries a `lastUpdated` field. -/
def c5Config : JValue :=
  JValue.obj [("showTime", JValue.bool true),
    ("lastUpdated", JValue.str "2020-01-01T00:00:00Z")]

/-- A module state that is not yet loaded but has every display flag on. -/
def c6State : ModuleState :=
  ModuleState.mk false true true true true true false (some ()) [()]

/-- A loaded, display-enabled module state showing only the time block. -/
def c6LoadedState : ModuleState :=
  ModuleState.mk true true true false false false false none []

/-- A loaded module state whose display has been disabled via the API. -/
def c6DisabledState : ModuleState :=
  ModuleState.mk true false true true true true true (some ()) [()]

/-- A `GPIOController` state holding the two edge ticks of an echo pulse
during which the 32-bit pigpio tick counter wrapped around: the true pulse
width is `(300 - 4294967096) mod 2^32 = 500` microseconds. -/
def c8State : GPIOState :=
  GPIOState.mk true false 0 999 4294967096 300 []

/-- A constructor argument that explicitly sets `distanceSmoothing: false`. -/
def c9Raw : RawSensorConfig :=
  RawSensorConfig.mk none none none none none (some false) none none none none

/-- An initialized, non-mock controller with two lit pixels. -/
def c10State : GPIOState :=
  GPIOState.mk true false 7 999 0 0 [5, 6]

/-- The default sensor configuration (constructor called with `{}`). -/
def defaultSensorConfig : SensorConfig := mkSensorConfig emptyRawSensorConfig

/-- A sensor state with a present object and a freshly armed presence timer. -/
def c3State : SensorState :=
  SensorState.mk 50 50 50 true [50] (some 30000)

/-- A trace in which every presence check happens well inside the timeout:
two elapsed milliseconds around an in-range check, one out-of-range check,
and one more millisecond. -/
def c3Trace : List SEvent :=
  [SEvent.tick, SEvent.check 50, SEvent.tick, SEvent.check 200, SEvent.tick]

/-! ## Helper lemmas -/

/-- The constructor default `config.distanceSmoothing || true` is `true` for
every constructor argument, including `distanceSmoothing: false`. -/
theorem mkSensorConfig_distanceSmoothing_eq_true (r : RawSensorConfig) :
    (mkSensorConfig r).distanceSmoothing = true := by
  rcases r with ⟨_, _, _, _, _, ds, _, _, _, _⟩
  cases ds with
  | none => rfl
  | some b => cases b <;> rfl

/-- Characterization of the smoothed distance produced by a valid reading
when smoothing is on: the reading itself on an empty history, otherwise the
exponential moving average against `smoothedDistance || newDistance`. -/
theorem handleDistanceChange_smoothed_eq (c : SensorConfig) (s : SensorState) (d : ℚ)
    (hc : c.distanceSmoothing = true)
    (h1 : c.minValidDistance ≤ d) (h2 : d ≤ c.maxValidDistance) :
    (handleDistanceChange c d s).1.smoothedDistance =
      if s.distanceHistory = [] then d
      else c.smoothingFactor * d + (1 - c.smoothingFactor) *
        (if s.smoothedDistance = 0 then d else s.smoothedDistance) := by
  have hvalid : ¬ (d < c.minValidDistance ∨ d > c.maxValidDistance) := by
    rintro (h | h) <;> linarith
  rcases s with ⟨cd, sd, lp, op, hist, pt⟩
  cases hist with
  | nil =>
      simp [handleDistanceChange, hvalid, hc, applySmoothingFilter]
  | cons a as =>
      simp [handleDistanceChange, hvalid, hc, applySmoothingFilter]
      by_cases hx : 5 < as.length + 1 + 1
      · rw [if_pos hx]
        have hlen : (as ++ [d]).length ≠ 1 := by
          simp only [List.length_append, List.length_cons, List.length_nil]
          omega
        rw [if_neg hlen]
      · rw [if_neg hx]
        have hlen : (a :: (as ++ [d])).length ≠ 1 := by
          simp only [List.length_append, List.length_cons, List.length_nil]
          omega
        rw [if_neg hlen]

/-- `List.lookup` after `setField`: the written key reads back the written
value, every other key is unaffected. -/
theorem lookup_setField (fields : List (String × JValue)) (key : String)
    (v : JValue) (k : String) :
    (setField fields key v).lookup k =
      if k = key then some v else fields.lookup k := by
  induction fields with
  | nil =>
      by_cases h : k = key
      · subst h
        simp [setField, List.lookup]
      · have hb : (k == key) = false := beq_eq_false_iff_ne.mpr h
        simp [setField, List.lookup, hb, h]
  | cons p rest ih =>
      rcases p with ⟨k', v'⟩
      by_cases h1 : k' = key
      · subst h1
        by_cases h2 : k = k'
        · subst h2
          simp [setField, List.lookup]
        · have hb : (k == k') = false := beq_eq_false_iff_ne.mpr h2
          simp [setField, List.lookup, hb, h2]
      · by_cases h2 : k = k'
        · subst h2
          have hne : ¬ k = key := h1
          simp [setField, List.lookup, h1, hne]
        · have hb : (k == k') = false := beq_eq_false_iff_ne.mpr h2
          simp [setField, List.lookup, h1, h2, hb, ih]

/-! ## Claim C2 -/

/-- Claim C2: `checkPresenceLogic` emits `presenceDetected` exactly when the
smoothed distance is within `detectionDistance` and no object was present
before the call; after such a call the object is present and the presence
timer has been re-armed for `presenceTimeout` milliseconds. -/
theorem checkPresenceLogic_spec (c : SensorConfig) (s : SensorState) :
    ((checkPresenceLogic c s).2 =
        [SensorOut.presenceDetected s.smoothedDistance c.detectionDistance false]
      ↔ (s.smoothedDistance ≤ c.detectionDistance ∧ s.objectPresent = false))
    ∧ ((checkPresenceLogic c s).2 = []
      ↔ ¬ (s.smoothedDistance ≤ c.detectionDistance ∧ s.objectPresent = false))
    ∧ (s.smoothedDistance ≤ c.detectionDistance ∧ s.objectPresent = false →
        (checkPresenceLogic c s).1.objectPresent = true ∧
        (checkPresenceLogic c s).1.presenceTimer = some c.presenceTimeout) := by
  by_cases hw : s.smoothedDistance ≤ c.detectionDistance
  · cases hp : s.objectPresent
    · simp [checkPresenceLogic, resetPresenceTimer, hw, hp]
    · simp [checkPresenceLogic, resetPresenceTimer, hw, hp]
  · cases hp : s.objectPresent
    · simp [checkPresenceLogic, resetPresenceTimer, hw, hp]
    · simp [checkPresenceLogic, resetPresenceTimer, hw, hp]

/-- Witness for claim C2 at a concrete state: smoothed distance 80 against
the default detection distance 100 with no object present emits the event
and arms the timer. -/
theorem checkPresenceLogic_spec_witness :
    (checkPresenceLogic defaultSensorConfig (SensorState.mk 80 80 50 false [80] none)).2 =
      [SensorOut.presenceDetected 80 100 false] ∧
    (checkPresenceLogic defaultSensorConfig (SensorState.mk 80 80 50 false [80] none)).1.objectPresent = true ∧
    (checkPresenceLogic defaultSensorConfig (SensorState.mk 80 80 50 false [80] none)).1.presenceTimer = some 30000 := by
  have h := checkPresenceLogic_spec defaultSensorConfig (SensorState.mk 80 80 50 false [80] none)
  have hd : defaultSensorConfig.detectionDistance = 100 := rfl
  have hpt : defaultSensorConfig.presenceTimeout = 30000 := rfl
  have hin : (80 : ℚ) ≤ defaultSensorConfig.detectionDistance := by rw [hd]; norm_num
  refine ⟨?_, ?_, ?_⟩
  · rw [h.1.mpr ⟨hin, rfl⟩, hd]
  · exact (h.2.2 ⟨hin, rfl⟩).1
  · rw [(h.2.2 ⟨hin, rfl⟩).2, hpt]

/-! ## Claim C4 -/

/-- Claim C4: a `POST /api/config` body that fails `validateConfiguration`
is answered with HTTP 400 and `success: false`, and the configuration file
on disk is left untouched. -/
theorem postApiConfig_invalid_body (file : FileContent) (body : JValue) (ts : String)
    (h : validateConfiguration body = some false) :
    (postApiConfig file body ts).status = 400 ∧
    (postApiConfig file body ts).success = false ∧
    (postApiConfig file body ts).file = file := by
  simp [postApiConfig, h]

/-- Witness for claim C4: the body `{"showTime": 1}` fails validation (a
checked boolean field holding a number) and the request leaves the stored
file alone. -/
theorem postApiConfig_invalid_body_witness :
    validateConfiguration (JValue.obj [("showTime", JValue.num 1)]) = some false ∧
    (postApiConfig FileContent.absent (JValue.obj [("showTime", JValue.num 1)]) "ts").status = 400 ∧
    (postApiConfig FileContent.absent (JValue.obj [("showTime", JValue.num 1)]) "ts").success = false ∧
    (postApiConfig FileContent.absent (JValue.obj [("showTime", JValue.num 1)]) "ts").file = FileContent.absent := by
  have hv : validateConfiguration (JValue.obj [("showTime", JValue.num 1)]) = some false := rfl
  have h := postApiConfig_invalid_body FileContent.absent
    (JValue.obj [("showTime", JValue.num 1)]) "ts" hv
  exact ⟨hv, h.1, h.2.1, h.2.2⟩

/-! ## Claim C7 -/

/-- Claim C7: `sendConfigurationToPython` returns `true` and appends exactly
one `config_update` message to the Python process's stdin precisely when the
process exists and has reported ready; otherwise it returns `false` and the
state (in particular the stdin stream) is unchanged. -/
theorem sendConfigurationToPython_spec (st : HelperState) (config : JValue) (ts : String) :
    (((sendConfigurationToPython st config ts).1 = true ∧
        (sendConfigurationToPython st config ts).2.stdinWrites =
          st.stdinWrites ++ [PyMessage.mk "config_update" config ts])
      ↔ (st.pythonProcess = true ∧ st.pythonAppReady = true))
    ∧ ((st.pythonProcess = false ∨ st.pythonAppReady = false) →
        (sendConfigurationToPython st config ts).1 = false ∧
        (sendConfigurationToPython st config ts).2 = st) := by
  rcases st with ⟨p, r, w⟩
  cases p <;> cases r <;> simp [sendConfigurationToPython]

/-- Witness for claim C7: with a ready process the call succeeds and writes
the one message; with a not-ready process it fails and writes nothing. -/
theorem sendConfigurationToPython_spec_witness :
    ((sendConfigurationToPython (HelperState.mk true true []) (JValue.num 1) "ts").1 = true ∧
      (sendConfigurationToPython (HelperState.mk true true []) (JValue.num 1) "ts").2.stdinWrites =
        [PyMessage.mk "config_update" (JValue.num 1) "ts"]) ∧
    ((sendConfigurationToPython (HelperState.mk true false []) (JValue.num 1) "ts").1 = false ∧
      (sendConfigurationToPython (HelperState.mk true false []) (JValue.num 1) "ts").2 =
        HelperState.mk true false []) :=
  ⟨(sendConfigurationToPython_spec (HelperState.mk true true []) (JValue.num 1) "ts").1.mpr
      ⟨rfl, rfl⟩,
    (sendConfigurationToPython_spec (HelperState.mk true false []) (JValue.num 1) "ts").2
      (Or.inr rfl)⟩

/-! ## Claim C1 -/

/-- Counterexample to claim C1 as stated: with `minValidDistance: -5` the raw
reading `0` is valid and becomes the smoothed distance; processing the next
valid reading `10` then yields a smoothed distance of `10` (because
`this.smoothedDistance || newDistance` treats the stored `0` as falsy and
substitutes the new reading), not the exponential moving average
`0.3 * 10 + 0.7 * 0 = 3` the claim prescribes. -/
theorem handleDistanceChange_ema_counterexample :
    c1Config.minValidDistance ≤ 10 ∧ (10 : ℚ) ≤ c1Config.maxValidDistance ∧
    c1State.distanceHistory ≠ [] ∧
    c1State.smoothedDistance = 0 ∧
    (handleDistanceChange c1Config 10 c1State).1.smoothedDistance = 10 ∧
    c1Config.smoothingFactor * 10 +
      (1 - c1Config.smoothingFactor) * c1State.smoothedDistance = 3 ∧
    (10 : ℚ) ≠ 3 := by
  have hmin : c1Config.minValidDistance = -5 := rfl
  have hmax : c1Config.maxValidDistance = 300 := rfl
  have hsf : c1Config.smoothingFactor = 3 / 10 := rfl
  have hstate : c1State = SensorState.mk 0 0 50 false [0] none := by
    show (handleDistanceChange c1Config 0 initialSensorState).1 = _
    norm_num [handleDistanceChange, applySmoothingFilter, initialSensorState,
      c1Config, c1Raw, mkSensorConfig, jsOrNum, jsOrBool]
  refine ⟨by rw [hmin]; norm_num, by rw [hmax]; norm_num, ?_, ?_, ?_, ?_, by norm_num⟩
  · rw [hstate]
    simp
  · rw [hstate]
  · rw [hstate]
    norm_num [handleDistanceChange, applySmoothingFilter,
      c1Config, c1Raw, mkSensorConfig, jsOrNum, jsOrBool]
  · rw [hstate, hsf]
    norm_num

/-- Claim C1 amended: for every valid raw reading, the first reading ever
recorded in the history becomes the smoothed distance itself, and every later
one is smoothed to `factor * d + (1 - factor) * previousSmoothed`, where
`previousSmoothed` is the prior smoothed distance unless that distance is
`0`, in which case (JS falsiness of `0`) the reading `d` takes its place. -/
theorem handleDistanceChange_ema (r : RawSensorConfig) (s : SensorState) (d : ℚ)
    (h1 : (mkSensorConfig r).minValidDistance ≤ d)
    (h2 : d ≤ (mkSensorConfig r).maxValidDistance) :
    (s.distanceHistory = [] →
      (handleDistanceChange (mkSensorConfig r) d s).1.smoothedDistance = d) ∧
    (s.distanceHistory ≠ [] →
      (handleDistanceChange (mkSensorConfig r) d s).1.smoothedDistance =
        (mkSensorConfig r).smoothingFactor * d +
          (1 - (mkSensorConfig r).smoothingFactor) *
            (if s.smoothedDistance = 0 then d else s.smoothedDistance)) := by
  have hc := mkSensorConfig_distanceSmoothing_eq_true r
  have h := handleDistanceChange_smoothed_eq (mkSensorConfig r) s d hc h1 h2
  constructor
  · intro hh
    rw [h, if_pos hh]
  · intro hh
    rw [h, if_neg hh]

/-- Witness for the amended claim C1 at the default configuration: the first
valid reading `50` becomes the smoothed distance, and from the state it
produces the next reading `80` is smoothed to `0.3 * 80 + 0.7 * 50 = 59`. -/
theorem handleDistanceChange_ema_witness :
    defaultSensorConfig.minValidDistance ≤ 50 ∧
    (50 : ℚ) ≤ defaultSensorConfig.maxValidDistance ∧
    (handleDistanceChange defaultSensorConfig 50 initialSensorState).1.smoothedDistance = 50 ∧
    (handleDistanceChange defaultSensorConfig 80 (SensorState.mk 50 50 50 false [50] none)).1.smoothedDistance = 59 := by
  have hmin : defaultSensorConfig.minValidDistance = 10 := rfl
  have hmax : defaultSensorConfig.maxValidDistance = 300 := rfl
  have hsf : defaultSensorConfig.smoothingFactor = 3 / 10 := rfl
  have hw1 := (handleDistanceChange_ema emptyRawSensorConfig initialSensorState 50
    (by rw [show mkSensorConfig emptyRawSensorConfig = defaultSensorConfig from rfl, hmin]; norm_num)
    (by rw [show mkSensorConfig emptyRawSensorConfig = defaultSensorConfig from rfl, hmax]; norm_num)).1 rfl
  have hw2 := (handleDistanceChange_ema emptyRawSensorConfig
    (SensorState.mk 50 50 50 false [50] none) 80
    (by rw [show mkSensorConfig emptyRawSensorConfig = defaultSensorConfig from rfl, hmin]; norm_num)
    (by rw [show mkSensorConfig emptyRawSensorConfig = defaultSensorConfig from rfl, hmax]; norm_num)).2 (by simp)
  refine ⟨by rw [hmin]; norm_num, by rw [hmax]; norm_num, hw1, ?_⟩
  rw [show defaultSensorConfig = mkSensorConfig emptyRawSensorConfig from rfl, hw2]
  norm_num [show (mkSensorConfig emptyRawSensorConfig).smoothingFactor = 3 / 10 from rfl]

/-! ## Claim C9 -/

/-- Claim C9: the `||` default makes `distanceSmoothing` effectively `true`
for every constructor argument (`config.distanceSmoothing || true` is `true`
even for an explicit `false`), so `handleDistanceChange` always takes the
smoothing branch on a valid reading, and once the history is non-empty the
smoothed distance is the exponential moving average rather than a plain copy
of the raw reading. -/
theorem distanceSmoothing_always_on (r : RawSensorConfig) (s : SensorState) (d : ℚ)
    (h1 : (mkSensorConfig r).minValidDistance ≤ d)
    (h2 : d ≤ (mkSensorConfig r).maxValidDistance) :
    (mkSensorConfig r).distanceSmoothing = true ∧
    (handleDistanceChange (mkSensorConfig r) d s).1.smoothedDistance =
      (applySmoothingFilter (mkSensorConfig r)
        (SensorState.mk d s.smoothedDistance s.lastPotentiometerValue s.objectPresent
          s.distanceHistory s.presenceTimer) d).2 ∧
    (s.distanceHistory ≠ [] →
      (handleDistanceChange (mkSensorConfig r) d s).1.smoothedDistance =
        (mkSensorConfig r).smoothingFactor * d +
          (1 - (mkSensorConfig r).smoothingFactor) *
            (if s.smoothedDistance = 0 then d else s.smoothedDistance)) := by
  have hc := mkSensorConfig_distanceSmoothing_eq_true r
  have hvalid : ¬ (d < (mkSensorConfig r).minValidDistance ∨
      d > (mkSensorConfig r).maxValidDistance) := by
    rintro (h | h) <;> linarith
  refine ⟨hc, ?_, ?_⟩
  · simp [handleDistanceChange, hvalid, hc]
  · intro hh
    have h := handleDistanceChange_smoothed_eq (mkSensorConfig r) s d hc h1 h2
    rw [h, if_neg hh]

/-- Witness for claim C9 at a constructor argument with an explicit
`distanceSmoothing: false`: the effective flag is still `true`, and a second
reading is smoothed, not copied. -/
theorem distanceSmoothing_always_on_witness :
    (mkSensorConfig c9Raw).distanceSmoothing = true ∧
    (handleDistanceChange (mkSensorConfig c9Raw) 80
      (SensorState.mk 50 50 50 false [50] none)).1.smoothedDistance = 59 := by
  have hmin : (mkSensorConfig c9Raw).minValidDistance = 10 := rfl
  have hmax : (mkSensorConfig c9Raw).maxValidDistance = 300 := rfl
  have h := distanceSmoothing_always_on c9Raw (SensorState.mk 50 50 50 false [50] none) 80
    (by rw [hmin]; norm_num) (by rw [hmax]; norm_num)
  refine ⟨h.1, ?_⟩
  rw [h.2.2 (by simp)]
  norm_num [show (mkSensorConfig c9Raw).smoothingFactor = 3 / 10 from rfl]

/-! ## Claim C5 -/

/-- Counterexample to claim C5 as stated: a configuration object that itself
carries a `lastUpdated` field does not survive the round trip on that field —
`{...config, lastUpdated: ts}` overwrites it with the save timestamp, so the
loaded object disagrees with `c` on the field `lastUpdated` of `c`. -/
theorem loadConfiguration_roundtrip_counterexample :
    ¬ AgreesOnFieldsOf c5Config
        (loadConfiguration (saveConfiguration c5Config "2025-06-01T00:00:00Z"
          FileContent.absent)) := by
  intro h
  have h1 := h "lastUpdated" (JValue.str "2020-01-01T00:00:00Z") rfl
  have h2 : (loadConfiguration (saveConfiguration c5Config "2025-06-01T00:00:00Z"
      FileContent.absent)).getField "lastUpdated" =
      some (JValue.str "2025-06-01T00:00:00Z") := rfl
  rw [h1] at h2
  simp at h2

/-- Claim C5 amended: after `saveConfiguration` of a configuration object, a
`loadConfiguration` reads back every field of the object except that
`lastUpdated` now carries the save timestamp (agreeing with the original on
every other field, and on `lastUpdated` too whenever the original did not
carry that field); a missing or unreadable/unparsable file loads as the fixed
default configuration instead of throwing. -/
theorem loadConfiguration_saveConfiguration_roundtrip
    (fields : List (String × JValue)) (ts : String) (prior : FileContent) (k : String) :
    (loadConfiguration (saveConfiguration (JValue.obj fields) ts prior)).getField k =
      (if k = "lastUpdated" then some (JValue.str ts) else fields.lookup k) ∧
    loadConfiguration FileContent.absent = defaultConfiguration ∧
    loadConfiguration FileContent.unreadable = defaultConfiguration := by
  refine ⟨?_, rfl, rfl⟩
  show (JValue.obj (setField (jsSpread (JValue.obj fields)) "lastUpdated"
    (JValue.str ts))).getField k = _
  rw [JValue.getField, jsSpread]
  exact lookup_setField fields "lastUpdated" (JValue.str ts) k

/-! ## Claim C6 -/

/-- Membership of the time block in the shared content container. -/
theorem mem_contentBlocks_time (s : ModuleState) :
    Block.time ∈ contentBlocks s ↔ s.showTime = true := by
  simp only [contentBlocks, List.mem_append]
  split_ifs <;> simp_all

/-- Membership of the weather block in the shared content container. -/
theorem mem_contentBlocks_weather (s : ModuleState) :
    Block.weather ∈ contentBlocks s ↔ s.showWeather = true ∧ s.weatherData.isSome = true := by
  simp only [contentBlocks, List.mem_append]
  split_ifs <;> simp_all

/-- Membership of the calendar block in the shared content container. -/
theorem mem_contentBlocks_calendar (s : ModuleState) :
    Block.calendar ∈ contentBlocks s ↔ s.showCalendar = true ∧ s.calendarEvents ≠ [] := by
  simp only [contentBlocks, List.mem_append]
  split_ifs with h1 h2 h3 <;> simp_all [List.length_pos_iff_ne_nil]

/-- Membership of the compliments block in the shared content container. -/
theorem mem_contentBlocks_compliments (s : ModuleState) :
    Block.compliments ∈ contentBlocks s ↔ s.showCompliments = true := by
  simp only [contentBlocks, List.mem_append]
  split_ifs <;> simp_all

/-- Counterexample to claim C6 as stated: in a module state that is not yet
`loaded` (both `getDom` variants then return only the loading notice) the
"time block iff `showTime`" biconditional fails even though `showTime`,
`displayEnabled` and every other display flag is on. -/
theorem getDom_blocks_counterexample :
    c6State.showTime = true ∧ c6State.displayEnabled = true ∧
    (displayGetDom c6State).contains Block.time = false ∧
    (hardwareGetDom c6State).contains Block.time = false :=
  ⟨rfl, rfl, rfl, rfl⟩

/-- Claim C6 amended: in a loaded, display-enabled state, both `getDom`
variants contain the time block iff `showTime`, the weather block iff
`showWeather` with weather data cached, the calendar block iff `showCalendar`
with a non-empty event list, and the compliments block iff `showCompliments`;
in a not-yet-loaded or display-disabled state neither variant produces any of
these content blocks. -/
theorem getDom_blocks (s : ModuleState) :
    (s.loaded = true → s.displayEnabled = true →
      ((Block.time ∈ displayGetDom s ↔ s.showTime = true) ∧
       (Block.weather ∈ displayGetDom s ↔ s.showWeather = true ∧ s.weatherData.isSome = true) ∧
       (Block.calendar ∈ displayGetDom s ↔ s.showCalendar = true ∧ s.calendarEvents ≠ []) ∧
       (Block.compliments ∈ displayGetDom s ↔ s.showCompliments = true) ∧
       displayGetDom s = hardwareGetDom s)) ∧
    ((s.loaded = false ∨ s.displayEnabled = false) →
      hasContentBlock (displayGetDom s) = false ∧
      hasContentBlock (hardwareGetDom s) = false) := by
  constructor
  · intro hl hd
    have hdisp : displayGetDom s = contentBlocks s := by
      simp [displayGetDom, hl, hd]
    have hhard : hardwareGetDom s = contentBlocks s := by
      simp [hardwareGetDom, hl, hd]
    rw [hdisp, hhard]
    exact ⟨mem_contentBlocks_time s, mem_contentBlocks_weather s,
      mem_contentBlocks_calendar s, mem_contentBlocks_compliments s, rfl⟩
  · rintro (h | h)
    · simp [displayGetDom, hardwareGetDom, h, hasContentBlock]
    · cases hl : s.loaded
      · simp [displayGetDom, hardwareGetDom, hl, hasContentBlock]
      · simp [displayGetDom, hardwareGetDom, hl, h, hasContentBlock]

/-- Witness for the amended claim C6: a loaded, enabled state showing only
the time block, and a loaded but disabled state producing no content block in
either variant. -/
theorem getDom_blocks_witness :
    Block.time ∈ displayGetDom c6LoadedState ∧
    hasContentBlock (displayGetDom c6DisabledState) = false ∧
    hasContentBlock (hardwareGetDom c6DisabledState) = false :=
  ⟨((getDom_blocks c6LoadedState).1 rfl rfl).1.mpr rfl,
   ((getDom_blocks c6DisabledState).2 (Or.inr rfl)).1,
   ((getDom_blocks c6DisabledState).2 (Or.inr rfl)).2⟩


/-! ## Claim C8 -/

/-- Claim C8 (code bug): the rollover correction in `calculateDistance` adds
`(1 << 32)`, but JavaScript's `<<` works on 32-bit integers with the shift
count taken modulo 32, so the added constant is `1`, not `2^32`.  At the
failing input `startTime = 4294967096`, `endTime = 300` the true wrapped
pulse width is `500` microseconds, whose distance `8.575` cm lies inside
`[2, 400]` and should update `currentDistance` with a `distanceChanged`
event; the code instead computes with the still-negative `-4294966795`
microseconds, rejects the resulting distance and neither updates
`currentDistance` nor emits anything. -/
theorem calculateDistance_rollover_bug :
    jsShl32 1 32 = 1 ∧
    specWrappedDistance 4294967096 300 = 343 / 40 ∧
    (2 ≤ specWrappedDistance 4294967096 300 ∧ specWrappedDistance 4294967096 300 ≤ 400) ∧
    (calculateDistance c8State).1.currentDistance = 999 ∧
    (calculateDistance c8State).2 = [] := by
  have hshl : jsShl32 1 32 = 1 := by
    norm_num [jsShl32, toInt32]
  have hmod : ((300 : ℤ) - 4294967096) % 2 ^ 32 = 500 := by decide
  have hspec : specWrappedDistance 4294967096 300 = 343 / 40 := by
    rw [specWrappedDistance, show ((4294967096 : ℕ) : ℤ) = 4294967096 from rfl,
      show ((300 : ℕ) : ℤ) = 300 from rfl, hmod]
    norm_num
  refine ⟨hshl, hspec, by rw [hspec]; norm_num, ?_, ?_⟩
  · norm_num [calculateDistance, c8State, hshl]
  · norm_num [calculateDistance, c8State, hshl]

/-! ## Claim C10 -/

/-- Claim C10: on an initialized controller, `setLEDIntensity(x)` stores the
clamp of `x` into `[0, 100]` as `currentLedIntensity` (so the stored
intensity always lies in `[0, 100]`); on real (non-mock) hardware a clamped
value of `0` — and `turnOffLEDs()` — clears every pixel, and any other
clamped value paints every pixel with white scaled to that percentage. -/
theorem setLEDIntensity_clamps (s : GPIOState) (x : ℚ) (hinit : s.initialized = true) :
    (setLEDIntensity s x).currentLedIntensity = min 100 (max 0 x) ∧
    0 ≤ (setLEDIntensity s x).currentLedIntensity ∧
    (setLEDIntensity s x).currentLedIntensity ≤ 100 ∧
    (s.mockMode = false →
      (min 100 (max 0 x) = 0 →
        (setLEDIntensity s x).pixels = s.pixels.map fun _ => 0) ∧
      (min 100 (max 0 x) ≠ 0 →
        (setLEDIntensity s x).pixels =
          s.pixels.map fun _ => stripColorWord 255 255 255 (min 100 (max 0 x))) ∧
      (turnOffLEDs s).pixels = s.pixels.map fun _ => 0) := by
  have hclamp : max (0 : ℚ) (min 100 x) = min 100 (max 0 x) := by
    rw [max_min_distrib_left, show ((0 : ℚ) ⊔ 100) = 100 from by
      rw [show ((0 : ℚ) ⊔ 100) = max 0 100 from rfl, max_eq_right]
      norm_num]
  have h0 : max (0 : ℚ) (min 100 0) = 0 := by
    rw [min_eq_right (by norm_num : (0 : ℚ) ≤ 100), max_self]
  obtain ⟨si, sm, sci, scd, sst, sen, spx⟩ := s
  simp only at hinit
  subst hinit
  cases sm
  · by_cases hz : max (0 : ℚ) (min 100 x) = 0
    · have hrun : setLEDIntensity (GPIOState.mk true false sci scd sst sen spx) x =
          GPIOState.mk true false (max 0 (min 100 x)) scd sst sen (spx.map fun _ => 0) := by
        simp [setLEDIntensity, clearAllLEDs, hz]
      have hoff : (turnOffLEDs (GPIOState.mk true false sci scd sst sen spx)).pixels =
          spx.map fun _ => 0 := by
        simp [turnOffLEDs, setLEDIntensity, clearAllLEDs, h0]
      refine ⟨?_, ?_, ?_, fun _ => ⟨fun _ => ?_, fun hne => absurd (hclamp.symm.trans hz) hne, hoff⟩⟩
      · rw [hrun]
        exact hclamp
      · rw [hrun]
        exact le_max_left _ _
      · rw [hrun]
        exact max_le (by norm_num) (min_le_left _ _)
      · rw [hrun]
    · have hrun : setLEDIntensity (GPIOState.mk true false sci scd sst sen spx) x =
          GPIOState.mk true false (max 0 (min 100 x)) scd sst sen
            (spx.map fun _ => stripColorWord 255 255 255 (max 0 (min 100 x))) := by
        simp [setLEDIntensity, setStripColor, hz]
      have hoff : (turnOffLEDs (GPIOState.mk true false sci scd sst sen spx)).pixels =
          spx.map fun _ => 0 := by
        simp [turnOffLEDs, setLEDIntensity, clearAllLEDs, h0]
      refine ⟨?_, ?_, ?_,
        fun _ => ⟨fun he => absurd (hclamp.trans he) hz, fun _ => ?_, hoff⟩⟩
      · rw [hrun]
        exact hclamp
      · rw [hrun]
        exact le_max_left _ _
      · rw [hrun]
        exact max_le (by norm_num) (min_le_left _ _)
      · rw [hrun, hclamp]
  · have hrun : setLEDIntensity (GPIOState.mk true true sci scd sst sen spx) x =
        GPIOState.mk true true (max 0 (min 100 x)) scd sst sen spx := by
      simp [setLEDIntensity]
    refine ⟨?_, ?_, ?_, fun hmf => absurd hmf (by simp)⟩
    · rw [hrun]
      exact hclamp
    · rw [hrun]
      exact le_max_left _ _
    · rw [hrun]
      exact max_le (by norm_num) (min_le_left _ _)

/-- Witness for claim C10: on an initialized non-mock controller with two lit
pixels, `setLEDIntensity 150` clamps to 100 and paints both pixels full
white (`0xFFFFFF = 16777215`), and `turnOffLEDs` clears both. -/
theorem setLEDIntensity_clamps_witness :
    (setLEDIntensity c10State 150).currentLedIntensity = 100 ∧
    (setLEDIntensity c10State 150).pixels = [16777215, 16777215] ∧
    (turnOffLEDs c10State).pixels = [0, 0] := by
  have h := setLEDIntensity_clamps c10State 150 rfl
  have hmm : min (100 : ℚ) (max 0 150) = 100 := by
    rw [max_eq_right (by norm_num : (0 : ℚ) ≤ 150), min_eq_left (by norm_num : (100 : ℚ) ≤ 150)]
  refine ⟨?_, ?_, ?_⟩
  · rw [h.1, hmm]
  · have hp := (h.2.2.2 rfl).2.1 (by rw [hmm]; norm_num)
    rw [hp, hmm]
    show List.map _ [5, 6] = _
    norm_num [stripColorWord, jsRound]
  · exact (h.2.2.2 rfl).2.2

/-! ## Claim C3 -/

/-- Claim C3: once an object is present and the presence timer is armed with
`r` ms remaining, a trace in which fewer milliseconds elapse than remain on
the timer before each in-range presence check (each such check re-arming the
timer for `presenceTimeout`), out-of-range checks change nothing, and
`forcePresenceTimeout` never occurs, emits no `presenceTimeout` event and
leaves the object present.  Contrapositively, `objectPresent` can only drop
to `false` after `presenceTimeout` milliseconds pass with no in-range check,
or through `forcePresenceTimeout`. -/
theorem presence_debounce (c : SensorConfig) (es : List SEvent) (s : SensorState) (r : ℚ)
    (hp : s.objectPresent = true) (ht : s.presenceTimer = some r)
    (hg : goodTrace c r es = true) :
    (runSensorEvents c s es).1.objectPresent = true ∧
    noPresenceTimeoutOut (runSensorEvents c s es).2 = true := by
  induction es generalizing s r with
  | nil => simp [runSensorEvents, noPresenceTimeoutOut, hp]
  | cons e es ih =>
      cases e with
      | tick =>
          simp only [goodTrace, Bool.and_eq_true, decide_eq_true_eq] at hg
          have h1 : (1 : ℚ) < r := hg.1
          have hne : ¬ r ≤ 1 := not_le.mpr h1
          have hstep : stepSensorEvent c s SEvent.tick =
              (SensorState.mk s.currentDistance s.smoothedDistance s.lastPotentiometerValue
                s.objectPresent s.distanceHistory (some (r - 1)), []) := by
            simp [stepSensorEvent, tickPresenceTimer, ht, hne]
          have ihh := ih (SensorState.mk s.currentDistance s.smoothedDistance
            s.lastPotentiometerValue s.objectPresent s.distanceHistory (some (r - 1)))
            (r - 1) hp rfl hg.2
          simp only [runSensorEvents, hstep]
          simpa [noPresenceTimeoutOut] using ihh
      | check d =>
          simp only [goodTrace] at hg
          by_cases hd : d ≤ c.detectionDistance
          · rw [if_pos hd] at hg
            have hstep : stepSensorEvent c s (SEvent.check d) =
                (SensorState.mk s.currentDistance d s.lastPotentiometerValue true
                  s.distanceHistory (some c.presenceTimeout), []) := by
              simp [stepSensorEvent, checkPresenceLogic, resetPresenceTimer, hd, hp]
            have ihh := ih (SensorState.mk s.currentDistance d s.lastPotentiometerValue true
              s.distanceHistory (some c.presenceTimeout)) c.presenceTimeout rfl rfl hg
            simp only [runSensorEvents, hstep]
            simpa [noPresenceTimeoutOut] using ihh
          · rw [if_neg hd] at hg
            have hstep : stepSensorEvent c s (SEvent.check d) =
                (SensorState.mk s.currentDistance d s.lastPotentiometerValue s.objectPresent
                  s.distanceHistory s.presenceTimer, []) := by
              simp [stepSensorEvent, checkPresenceLogic, hd, hp]
            have ihh := ih (SensorState.mk s.currentDistance d s.lastPotentiometerValue
              s.objectPresent s.distanceHistory s.presenceTimer) r hp ht hg
            simp only [runSensorEvents, hstep]
            simpa [noPresenceTimeoutOut] using ihh
      | forceTimeout =>
          simp [goodTrace] at hg

/-- Witness for claim C3: with the default configuration (detection distance
100 cm, timeout 30000 ms) and a present object, a trace of single elapsed
milliseconds around an in-range check at 50 cm and an out-of-range check at
200 cm keeps the object present and emits no `presenceTimeout`. -/
theorem presence_debounce_witness :
    goodTrace defaultSensorConfig 30000 c3Trace = true ∧
    (runSensorEvents defaultSensorConfig c3State c3Trace).1.objectPresent = true ∧
    noPresenceTimeoutOut (runSensorEvents defaultSensorConfig c3State c3Trace).2 = true := by
  have hg : goodTrace defaultSensorConfig 30000 c3Trace = true := by
    norm_num [goodTrace, c3Trace,
      show defaultSensorConfig.detectionDistance = 100 from rfl,
      show defaultSensorConfig.presenceTimeout = 30000 from rfl]
  have h := presence_debounce defaultSensorConfig c3Trace c3State 30000 rfl rfl hg
  exact ⟨hg, h.1, h.2⟩
